import Mathlib

/-!
A shallow embedding of the gesture-classification engine of
`Voice_and_Gesture_Control_UI/gesture_client.py` (class `GestureEngine`),
together with theorems about its behaviour.

Modelling conventions:
* Python floats are modelled as exact rationals (`ℚ`).
* `math.sqrt` is modelled by `ratSqrt`, a rational square root that is exact
  whenever the radicand is the square of a rational; every concrete radicand
  appearing in this development has that form, and no theorem below depends on
  the value of a square root outside that range.
* The engine's clock (`time.monotonic()`) is injected as the explicit `now`
  argument and the mutable `self` is threaded through explicitly.
* Python list indexing (`lm[4]`, `lm[8]`, `lm[12]`, which raises `IndexError`
  when the index is out of range) is modelled with `List.getElem?`; `update`
  returns `none` exactly when the Python code would raise.
* Display-only members (`TestOverlay`, the flash banner, `print` logging) and
  the nondeterministic payload fields (`event_id`, wall-clock `timestamp`,
  constant `success` / `handedness` / `target_element_id`) influence neither
  the engine state nor any other payload field and are omitted.
* `round(x, n)` is modelled by `roundTo n`, exact round-half-to-even on ℚ.
-/

namespace GestureClient

/-- `PINCH_DIST` — below this thumb–finger distance a pinch turns ON. -/
def PINCH_DIST : ℚ := 0.04

/-- `PINCH_EXIT` — above this distance a pinch turns OFF (hysteresis). -/
def PINCH_EXIT : ℚ := 0.05

/-- `TAP_MAX_TIME` — release before this (seconds) → tap. -/
def TAP_MAX_TIME : ℚ := 0.20

/-- `HOLD_MIN_MS` — pinch longer than this (ms), no movement → hold. -/
def HOLD_MIN_MS : ℚ := 500

/-- `DRAG_DEADZONE` — cumulative movement must exceed this to count as drag. -/
def DRAG_DEADZONE : ℚ := 0.05

/-- `FLICK_VELOCITY` — distance travelled in last 0.1 s must exceed this. -/
def FLICK_VELOCITY : ℚ := 0.30

/-- `DOUBLE_TAP_COOL` — after a double tap, ignore index pinches this long. -/
def DOUBLE_TAP_COOL : ℚ := 0.30

/-- One MediaPipe hand landmark (normalised coordinates). -/
structure Landmark where
  x : ℚ
  y : ℚ
  z : ℚ
  deriving DecidableEq

/-- Integer square root by exhaustive search, chosen for kernel-reduction
friendliness.  It is exact on perfect squares, the only case exercised by the
concrete inputs of this development. -/
def isqrt (n : ℕ) : ℕ :=
  ((List.range (n + 1)).filter fun k => k * k ≤ n).getLastD 0

/-- Rational square root standing in for `math.sqrt`.  For a reduced rational
`q = a / b` with `a`, `b` perfect squares (in particular for every radicand of
the form `r ^ 2` with `r : ℚ`) it returns the exact square root. -/
def ratSqrt (q : ℚ) : ℚ :=
  (isqrt q.num.toNat : ℚ) / (isqrt q.den : ℚ)

/-- `_dist` — Euclidean distance between two landmarks (x/y only). -/
def _dist (a b : Landmark) : ℚ :=
  ratSqrt ((a.x - b.x) ^ 2 + (a.y - b.y) ^ 2)

/-- Hysteresis update of one pinch channel (`update`, lines 344–353):
enter below `PINCH_DIST`, exit above `PINCH_EXIT`, otherwise keep the flag. -/
def hystStep (pinched : Bool) (d : ℚ) : Bool :=
  if pinched = false ∧ d < PINCH_DIST then true
  else if pinched = true ∧ PINCH_EXIT < d then false
  else pinched

/-- A velocity-trail sample `(x, y, timestamp)`. -/
abbrev Sample := ℚ × ℚ × ℚ

/-- Appending to the `deque(maxlen=12)` velocity trail. -/
def pushTrail (tr : List Sample) (s : Sample) : List Sample :=
  if tr.length < 12 then tr ++ [s] else tr.tail ++ [s]

/-- The `for pt in self._trail` loop of `_calc_vel`: keep replacing `best`
while `pt.t ≤ target`, stop at the first sample past the target. -/
def scanBest (best : Sample) (l : List Sample) (target : ℚ) : Sample :=
  match l with
  | [] => best
  | p :: rest => if p.2.2 ≤ target then scanBest p rest target else best

/-- `GestureEngine._calc_vel` — distance travelled in the last ~0.1 s window,
normalised to a fixed 100 ms window. -/
def _calc_vel (trail : List Sample) : ℚ :=
  if trail.length < 3 then 0
  else
    match trail with
    | [] => 0
    | p0 :: rest =>
      let last := rest.getLastD p0
      let target := last.2.2 - 0.1
      let best := scanBest p0 (p0 :: rest) target
      let dt := last.2.2 - best.2.2
      if dt < 0.01 then 0
      else ratSqrt ((last.1 - best.1) ^ 2 + (last.2.1 - best.2.1) ^ 2) * (0.1 / dt)

/-- Floor of a rational as an integer (kernel-computable). -/
def ratFloor (q : ℚ) : ℤ := Int.fdiv q.num (q.den : ℤ)

/-- Round-half-to-even to the nearest integer, the rounding mode of Python's
built-in `round`. -/
def halfEven (r : ℚ) : ℤ :=
  let f := ratFloor r
  let frac := r - (f : ℚ)
  if frac < 1/2 then f
  else if 1/2 < frac then f + 1
  else if f % 2 = 0 then f else f + 1

/-- `round(q, n)` — round to `n` decimal places, half to even. -/
def roundTo (n : ℕ) (q : ℚ) : ℚ :=
  (halfEven (q * 10 ^ n) : ℚ) / 10 ^ n

/-- The engine's tagged state: `S_IDLE` / `S_IDX_PINCH` / `S_MID_PINCH`. -/
inductive EngineState
  | idle
  | idxPinch
  | midPinch
  deriving DecidableEq

/-- The gesture type strings emitted by the engine. -/
inductive GType
  | none
  | tap
  | double_tap
  | pinch_hold
  | pinch_drag
  | pinch_flick
  deriving DecidableEq

/-- The gesture phase strings emitted by the engine (`end'` models `"end"`). -/
inductive GState
  | idle
  | start
  | active
  | end'
  deriving DecidableEq

/-- The mutable state of `GestureEngine` (`__init__`, lines 284–318), minus
the display-only members. -/
structure GestureEngine where
  state : EngineState
  idx_pinched : Bool
  mid_pinched : Bool
  idx_dist : ℚ
  mid_dist : ℚ
  pinch_t0 : ℚ
  dur_ms : ℚ
  prev_palm : Option (ℚ × ℚ)
  frame_dx : ℚ
  frame_dy : ℚ
  cum_move : ℚ
  moved : Bool
  trail : List Sample
  vel : ℚ
  tap_count : ℕ
  gtype : GType
  gstate : GState
  cursor_x : ℚ
  cursor_y : ℚ
  dbl_cooldown_until : ℚ
  deriving DecidableEq

/-- The freshly-constructed engine. -/
def initEngine : GestureEngine where
  state := .idle
  idx_pinched := false
  mid_pinched := false
  idx_dist := 1
  mid_dist := 1
  pinch_t0 := 0
  dur_ms := 0
  prev_palm := Option.none
  frame_dx := 0
  frame_dy := 0
  cum_move := 0
  moved := false
  trail := []
  vel := 0
  tap_count := 0
  gtype := .none
  gstate := .idle
  cursor_x := 1/2
  cursor_y := 1/2
  dbl_cooldown_until := 0

/-- The `interaction_data.timing` sub-record of the payload. -/
structure Timing where
  duration_ms : ℚ
  tap_count : ℕ
  deriving DecidableEq

/-- The deterministic part of the per-frame output record (`_payload`). -/
structure FrameEvent where
  gtype : GType
  gstate : GState
  confidence : ℚ
  landmarks : List Landmark
  world : Landmark
  is_pinched : Bool
  pinch_strength : ℚ
  pinch_distance : ℚ
  origin : ℚ × ℚ
  current : ℚ × ℚ
  delta : ℚ × ℚ
  velocity : ℚ × ℚ
  timing : Timing
  cursor : ℚ × ℚ
  deriving DecidableEq

/-- `GestureEngine._enter_idx_pinch` (lines 466–476). -/
def _enter_idx_pinch (e : GestureEngine) (now ix iy : ℚ) : GestureEngine :=
  { e with state := .idxPinch, pinch_t0 := now, prev_palm := some (ix, iy),
           cum_move := 0, moved := false, trail := [(ix, iy, now)],
           gtype := .pinch_hold, gstate := .start }

/-- `GestureEngine._enter_mid_pinch` (lines 478–482). -/
def _enter_mid_pinch (e : GestureEngine) (now : ℚ) : GestureEngine :=
  { e with state := .midPinch, pinch_t0 := now,
           gtype := .double_tap, gstate := .start }

/-- `GestureEngine._reset_pinch` (lines 484–487). -/
def _reset_pinch (e : GestureEngine) : GestureEngine :=
  { e with prev_palm := Option.none, cum_move := 0, moved := false }

/-- The `S_IDLE` branch of the state machine (lines 364–373). -/
def stepIdle (e : GestureEngine) (now ix iy : ℚ) : GestureEngine :=
  let e := { e with gtype := .none, gstate := .idle }
  if e.mid_pinched = true then _enter_mid_pinch e now
  else if e.idx_pinched = true ∧ e.dbl_cooldown_until < now then
    _enter_idx_pinch e now ix iy
  else e

/-- The `S_MID_PINCH` branch of the state machine (lines 375–399). -/
def stepMid (e : GestureEngine) (now : ℚ) : GestureEngine :=
  let e := { e with dur_ms := (now - e.pinch_t0) * 1000 }
  if e.mid_pinched = true then
    { e with gtype := .double_tap, gstate := .start }
  else
    let dur_s := e.dur_ms / 1000
    let e :=
      if dur_s < TAP_MAX_TIME then
        { e with gtype := .double_tap, gstate := .end', tap_count := 2,
                 dbl_cooldown_until := now + DOUBLE_TAP_COOL }
      else
        { e with gtype := .none, gstate := .idle }
    { e with state := .idle }

/-- The `S_IDX_PINCH` branch of the state machine (lines 401–461). -/
def stepIdx (e : GestureEngine) (now ix iy : ℚ) : GestureEngine :=
  let e := { e with dur_ms := (now - e.pinch_t0) * 1000 }
  if e.idx_pinched = true then
    let e :=
      match e.prev_palm with
      | some pp =>
        let dx := ix - pp.1
        let dy := iy - pp.2
        { e with frame_dx := dx, frame_dy := dy,
                 cum_move := e.cum_move + ratSqrt (dx ^ 2 + dy ^ 2) }
      | none => e
    let e := { e with prev_palm := some (ix, iy) }
    let e := if DRAG_DEADZONE < e.cum_move then { e with moved := true } else e
    if e.moved = true then { e with gtype := .pinch_drag, gstate := .active }
    else if HOLD_MIN_MS < e.dur_ms then { e with gtype := .pinch_hold, gstate := .active }
    else { e with gtype := .pinch_hold, gstate := .start }
  else
    let e := { e with vel := _calc_vel e.trail }
    let dur_s := e.dur_ms / 1000
    let e :=
      if e.moved = true ∧ FLICK_VELOCITY < e.vel then
        { e with gtype := .pinch_flick, gstate := .end' }
      else if dur_s < TAP_MAX_TIME ∧ e.moved = false then
        { e with gtype := .tap, gstate := .end', tap_count := 1 }
      else if e.moved = true then
        { e with gtype := .pinch_drag, gstate := .end' }
      else
        { e with gtype := .pinch_hold, gstate := .end' }
    let e := _reset_pinch e
    { e with state := .idle }

/-- Dispatch on the current state (the `STATE MACHINE` block of `update`). -/
def stepState (e : GestureEngine) (now ix iy : ℚ) : GestureEngine :=
  match e.state with
  | .idle => stepIdle e now ix iy
  | .idxPinch => stepIdx e now ix iy
  | .midPinch => stepMid e now

/-- The per-frame bookkeeping preceding the state machine (`update`,
lines 334–360): cursor, raw distances, hysteresis, trail append, and the
per-frame reset of `frame_dx` / `frame_dy`. -/
def preFrame (e : GestureEngine) (thumb index middle : Landmark) (now : ℚ) :
    GestureEngine :=
  let ix := index.x
  let iy := index.y
  let idxD := _dist thumb index
  let midD := _dist thumb middle
  { e with
    cursor_x := ix, cursor_y := iy,
    idx_dist := idxD, mid_dist := midD,
    idx_pinched := hystStep e.idx_pinched idxD,
    mid_pinched := hystStep e.mid_pinched midD,
    trail := pushTrail e.trail (ix, iy, now),
    frame_dx := 0, frame_dy := 0 }

/-- The record built by `_payload` once `lm[INDEX_TIP]` is available. -/
def mkFrameEvent (e : GestureEngine) (index : Landmark) (lm : List Landmark) :
    FrameEvent where
  gtype := e.gtype
  gstate := e.gstate
  confidence := 1 - min e.idx_dist e.mid_dist
  landmarks := lm.map fun l => { x := roundTo 5 l.x, y := roundTo 5 l.y, z := roundTo 5 l.z }
  world := { x := roundTo 5 index.x, y := roundTo 5 index.y, z := roundTo 5 index.z }
  is_pinched := e.idx_pinched || e.mid_pinched
  pinch_strength := roundTo 4 (max 0 (1 - e.idx_dist / PINCH_EXIT))
  pinch_distance := roundTo 5 e.idx_dist
  origin := (roundTo 5 e.cursor_x, roundTo 5 e.cursor_y)
  current := (roundTo 5 e.cursor_x, roundTo 5 e.cursor_y)
  delta := (roundTo 5 e.frame_dx, roundTo 5 e.frame_dy)
  velocity := (roundTo 2 (e.frame_dx * 1000), roundTo 2 (e.frame_dy * 1000))
  timing := { duration_ms := roundTo 1 e.dur_ms, tap_count := e.tap_count }
  cursor := (roundTo 5 e.cursor_x, roundTo 5 e.cursor_y)

/-- `GestureEngine._payload` (lines 519–571); it indexes `lm[INDEX_TIP]`. -/
def _payload (e : GestureEngine) (lm : List Landmark) : Option FrameEvent :=
  match lm[8]? with
  | some index => some (mkFrameEvent e index lm)
  | none => Option.none

/-- `GestureEngine.update` (lines 327–463): one call per captured frame.
Returns the updated engine together with the emitted `FrameEvent`, or `none`
exactly where the Python code raises `IndexError` on the landmark list. -/
def update (e : GestureEngine) (lm : List Landmark) (now : ℚ) :
    Option (GestureEngine × FrameEvent) :=
  match lm[4]?, lm[8]?, lm[12]? with
  | some thumb, some index, some middle =>
    let e1 := preFrame e thumb index middle now
    let e2 := stepState e1 now index.x index.y
    (match _payload e2 lm with
     | some ev => some (e2, ev)
     | none => Option.none)
  | _, _, _ => Option.none

/-- Iterate `update` over a list of frames `(landmarks, timestamp)`. -/
def runUpdates (e : GestureEngine) (fs : List (List Landmark × ℚ)) :
    Option (GestureEngine × List FrameEvent) :=
  match fs with
  | [] => some (e, [])
  | (lm, t) :: rest =>
    match update e lm t with
    | some (e', ev) =>
      (match runUpdates e' rest with
       | some (ef, evs) => some (ef, ev :: evs)
       | none => Option.none)
    | none => Option.none

/-- A full 21-landmark list with the three semantically-meaningful tips
(indices 4, 8, 12) set and every other landmark at the origin. -/
def mkLm (thumb index middle : Landmark) : List Landmark :=
  (List.range 21).map fun i =>
    if i = 4 then thumb
    else if i = 8 then index
    else if i = 12 then middle
    else { x := 0, y := 0, z := 0 }

/-! Concrete inputs used by the witnesses and counterexamples below.  All
thumb/index/middle placements are chosen so that every Euclidean distance that
matters is the square root of a perfect rational square. -/

/-- An engine mid-way through a fast index drag: pinched, `moved`, and with a
trail that travelled 0.3 units in the last 90 ms. -/
def flickEngine : GestureEngine :=
  { initEngine with
    state := .idxPinch, idx_pinched := true, moved := true, pinch_t0 := 0,
    prev_palm := some (1/5, 0), cum_move := 3/25,
    trail := [(0, 0, 0), (1/10, 0, 3/100), (1/5, 0, 3/50)] }

/-- Release frame for `flickEngine`: thumb–index distance `3/50 > PINCH_EXIT`. -/
def lmFlick : List Landmark :=
  mkLm { x := 9/25, y := 0, z := 0 } { x := 3/10, y := 0, z := 0 }
       { x := 9/25, y := 1/2, z := 0 }

/-- An engine holding a middle pinch that started at time 0. -/
def midEngine : GestureEngine :=
  { initEngine with state := .midPinch, mid_pinched := true, pinch_t0 := 0 }

/-- A frame with both channels far from pinching (index 0.3, middle 0.2). -/
def lmOpen : List Landmark :=
  mkLm { x := 1/2, y := 1/2, z := 0 } { x := 1/5, y := 1/2, z := 0 }
       { x := 7/10, y := 1/2, z := 0 }

/-- A frame with the index channel pinched (distance `1/50`) and the middle
channel far (distance `1/2`). -/
def lmIdxPinch : List Landmark :=
  mkLm { x := 13/25, y := 1/2, z := 0 } { x := 1/2, y := 1/2, z := 0 }
       { x := 13/25, y := 1, z := 0 }

/-- A frame with the middle channel pinched (distance `1/50`) and the index
channel far (distance `3/10`). -/
def lmMidPinch : List Landmark :=
  mkLm { x := 1/2, y := 1/2, z := 0 } { x := 1/5, y := 1/2, z := 0 }
       { x := 13/25, y := 1/2, z := 0 }

/-- An idle engine carrying a double-tap cooldown deadline of `2/5`. -/
def cooldownEngine : GestureEngine :=
  { initEngine with dbl_cooldown_until := 2/5 }

/-- Double tap at `t = 0 … 1/10` (deadline becomes `2/5`), then an index pinch
arriving exactly at `t = 2/5`, i.e. exactly at the cooldown deadline. -/
def dblFrames : List (List Landmark × ℚ) :=
  [(lmMidPinch, 0), (lmOpen, 1/10), (lmIdxPinch, 2/5)]

/-- The spec scenario: index distances `[0.10, 0.02, 0.02, 0.02, 0.10]`
sampled 33 ms apart with the index tip (the tracked point) never moving. -/
def tapFrames : List (List Landmark × ℚ) :=
  [ (mkLm { x := 3/5, y := 1/2, z := 0 } { x := 1/2, y := 1/2, z := 0 }
         { x := 3/5, y := 1, z := 0 }, 0),
    (lmIdxPinch, 33/1000),
    (lmIdxPinch, 66/1000),
    (lmIdxPinch, 99/1000),
    (mkLm { x := 3/5, y := 1/2, z := 0 } { x := 1/2, y := 1/2, z := 0 }
         { x := 3/5, y := 1, z := 0 }, 132/1000) ]

/-- An engine that already crossed the drag deadzone (`moved = true`). -/
def stickyEngine : GestureEngine :=
  { initEngine with
    state := .idxPinch, idx_pinched := true, moved := true, pinch_t0 := 0,
    prev_palm := some (1/2, 1/2), cum_move := 3/50, trail := [(1/2, 1/2, 0)] }

/-- Two frames that keep the index pinch held with zero displacement. -/
def stickyFrames : List (List Landmark × ℚ) :=
  [(lmIdxPinch, 1/30), (lmIdxPinch, 1/15)]

/-- An idle engine still carrying the timing data of a finished gesture. -/
def staleEngine : GestureEngine :=
  { initEngine with tap_count := 2, dur_ms := 120 }

/-- Thumb at the origin, both fingertips at distance `6/5 > 1` from it
(3-4-5 triangles scaled by `6/25`), so `1 - min` of the distances is `< 0`. -/
def lmFar : List Landmark :=
  mkLm { x := 0, y := 0, z := 0 } { x := 18/25, y := 24/25, z := 0 }
       { x := 24/25, y := 18/25, z := 0 }

/-- A frame whose index-tip x-coordinate `1/3` is not representable in five
decimal places. -/
def lmThird : List Landmark :=
  mkLm { x := 1/2, y := 1/2, z := 0 } { x := 1/3, y := 1/2, z := 0 }
       { x := 7/10, y := 1/2, z := 0 }

/-- A landmark list of length 13 — malformed by the spec (≠ 21), but long
enough to contain indices 4, 8 and 12. -/
def lm13 : List Landmark := List.replicate 13 { x := 1/2, y := 1/2, z := 0 }

/-- The trail used by the velocity-estimator witness. -/
def velTrail : List Sample := [(0, 0, 0), (1/10, 0, 3/100), (1/5, 0, 1/5)]

/-- An engine one frame before a quick, motionless release (for the tap law). -/
def tapRelEngine : GestureEngine :=
  { initEngine with
    state := .idxPinch, idx_pinched := true, pinch_t0 := 0,
    prev_palm := some (1/2, 1/2), trail := [(1/2, 1/2, 0)] }

/-- The ENTER comparison of the hysteresis as a boolean: `d < PINCH_DIST`. -/
def belowEnter (d : ℚ) : Bool := if d < PINCH_DIST then true else false

/-- The EXIT comparison of the hysteresis as a boolean: `d > PINCH_EXIT`. -/
def aboveExit (d : ℚ) : Bool := if PINCH_EXIT < d then true else false

/-- How many adjacent positions of `b :: l` hold different values. -/
def changeCount (b : Bool) : List Bool → ℕ
  | [] => 0
  | x :: xs => (if x = b then 0 else 1) + changeCount x xs

/-- How many adjacent positions of `l` hold different values — the number of
threshold crossings when `l` is a comparison applied pointwise to a distance
sequence. -/
def listChanges : List Bool → ℕ
  | [] => 0
  | x :: xs => changeCount x xs

/-- How often the pinched flag changes value while the hysteresis consumes a
distance sequence, starting from flag `b`. -/
def flagChanges (b : Bool) : List ℚ → ℕ
  | [] => 0
  | d :: ds => (if hystStep b d = b then 0 else 1) + flagChanges (hystStep b d) ds

/-- Bookkeeping for the hysteresis-stability bound: one spare flag change is
pending exactly when the flag is on but the ENTER comparison is off. -/
def credit (b p : Bool) : ℕ := if b = true ∧ p = false then 1 else 0

/-- The reference sample of the velocity estimator as the specification
describes it: scanning from the oldest sample, the last sample of the initial
run satisfying `t ≤ latest.t - 0.1` (a `takeWhile`), defaulting to the oldest
sample when even the first one is past the target. -/
def velRef (p0 : Sample) (rest : List Sample) : Sample :=
  (((p0 :: rest).takeWhile fun p =>
    p.2.2 ≤ (rest.getLastD p0).2.2 - 0.1).getLast?).getD p0

/-! ## Helper lemmas -/

/-- When indices 4, 8 and 12 all exist, `update` succeeds and factors through
`preFrame`, `stepState` and `mkFrameEvent`. -/
theorem update_eq_some (e : GestureEngine) (lm : List Landmark) (now : ℚ)
    {thumb index middle : Landmark}
    (h4 : lm[4]? = some thumb) (h8 : lm[8]? = some index)
    (h12 : lm[12]? = some middle) :
    update e lm now =
      some (stepState (preFrame e thumb index middle now) now index.x index.y,
            mkFrameEvent (stepState (preFrame e thumb index middle now) now
              index.x index.y) index lm) := by
  simp [update, _payload, h4, h8, h12]

theorem stepState_eq_idle (e : GestureEngine) (now ix iy : ℚ)
    (h : e.state = .idle) : stepState e now ix iy = stepIdle e now ix iy := by
  unfold stepState
  rw [h]

theorem stepState_eq_idx (e : GestureEngine) (now ix iy : ℚ)
    (h : e.state = .idxPinch) : stepState e now ix iy = stepIdx e now ix iy := by
  unfold stepState
  rw [h]

theorem stepState_eq_mid (e : GestureEngine) (now ix iy : ℚ)
    (h : e.state = .midPinch) : stepState e now ix iy = stepMid e now := by
  unfold stepState
  rw [h]

theorem msec_cancel (x : ℚ) : x * 1000 / 1000 = x :=
  mul_div_cancel_right₀ x (by norm_num)

@[simp] theorem preFrame_state (e : GestureEngine) (t i m : Landmark) (now : ℚ) :
    (preFrame e t i m now).state = e.state := rfl

@[simp] theorem preFrame_idx_pinched (e : GestureEngine) (t i m : Landmark) (now : ℚ) :
    (preFrame e t i m now).idx_pinched = hystStep e.idx_pinched (_dist t i) := rfl

@[simp] theorem preFrame_mid_pinched (e : GestureEngine) (t i m : Landmark) (now : ℚ) :
    (preFrame e t i m now).mid_pinched = hystStep e.mid_pinched (_dist t m) := rfl

@[simp] theorem preFrame_idx_dist (e : GestureEngine) (t i m : Landmark) (now : ℚ) :
    (preFrame e t i m now).idx_dist = _dist t i := rfl

@[simp] theorem preFrame_mid_dist (e : GestureEngine) (t i m : Landmark) (now : ℚ) :
    (preFrame e t i m now).mid_dist = _dist t m := rfl

@[simp] theorem preFrame_pinch_t0 (e : GestureEngine) (t i m : Landmark) (now : ℚ) :
    (preFrame e t i m now).pinch_t0 = e.pinch_t0 := rfl

@[simp] theorem preFrame_dur_ms (e : GestureEngine) (t i m : Landmark) (now : ℚ) :
    (preFrame e t i m now).dur_ms = e.dur_ms := rfl

@[simp] theorem preFrame_moved (e : GestureEngine) (t i m : Landmark) (now : ℚ) :
    (preFrame e t i m now).moved = e.moved := rfl

@[simp] theorem preFrame_cum_move (e : GestureEngine) (t i m : Landmark) (now : ℚ) :
    (preFrame e t i m now).cum_move = e.cum_move := rfl

@[simp] theorem preFrame_prev_palm (e : GestureEngine) (t i m : Landmark) (now : ℚ) :
    (preFrame e t i m now).prev_palm = e.prev_palm := rfl

@[simp] theorem preFrame_tap_count (e : GestureEngine) (t i m : Landmark) (now : ℚ) :
    (preFrame e t i m now).tap_count = e.tap_count := rfl

@[simp] theorem preFrame_trail (e : GestureEngine) (t i m : Landmark) (now : ℚ) :
    (preFrame e t i m now).trail = pushTrail e.trail (i.x, i.y, now) := rfl

@[simp] theorem preFrame_cooldown (e : GestureEngine) (t i m : Landmark) (now : ℚ) :
    (preFrame e t i m now).dbl_cooldown_until = e.dbl_cooldown_until := rfl

@[simp] theorem preFrame_cursor_x' (e : GestureEngine) (t i m : Landmark) (now : ℚ) :
    (preFrame e t i m now).cursor_x = i.x := rfl

@[simp] theorem preFrame_cursor_y' (e : GestureEngine) (t i m : Landmark) (now : ℚ) :
    (preFrame e t i m now).cursor_y = i.y := rfl

@[simp] theorem mkFrameEvent_gtype (e : GestureEngine) (i : Landmark) (lm : List Landmark) :
    (mkFrameEvent e i lm).gtype = e.gtype := rfl

@[simp] theorem mkFrameEvent_gstate (e : GestureEngine) (i : Landmark) (lm : List Landmark) :
    (mkFrameEvent e i lm).gstate = e.gstate := rfl

@[simp] theorem mkFrameEvent_timing (e : GestureEngine) (i : Landmark) (lm : List Landmark) :
    (mkFrameEvent e i lm).timing =
      { duration_ms := roundTo 1 e.dur_ms, tap_count := e.tap_count } := rfl

theorem stepState_cursor_x (e : GestureEngine) (now ix iy : ℚ) :
    (stepState e now ix iy).cursor_x = e.cursor_x := by
  unfold stepState
  cases h : e.state <;>
    simp only [stepIdle, stepIdx, stepMid, _enter_idx_pinch, _enter_mid_pinch,
      _reset_pinch] <;>
    (repeat' split) <;> rfl

theorem stepState_cursor_y (e : GestureEngine) (now ix iy : ℚ) :
    (stepState e now ix iy).cursor_y = e.cursor_y := by
  unfold stepState
  cases h : e.state <;>
    simp only [stepIdle, stepIdx, stepMid, _enter_idx_pinch, _enter_mid_pinch,
      _reset_pinch] <;>
    (repeat' split) <;> rfl

theorem stepState_idx_dist (e : GestureEngine) (now ix iy : ℚ) :
    (stepState e now ix iy).idx_dist = e.idx_dist := by
  unfold stepState
  cases h : e.state <;>
    simp only [stepIdle, stepIdx, stepMid, _enter_idx_pinch, _enter_mid_pinch,
      _reset_pinch] <;>
    (repeat' split) <;> rfl

theorem stepState_mid_dist (e : GestureEngine) (now ix iy : ℚ) :
    (stepState e now ix iy).mid_dist = e.mid_dist := by
  unfold stepState
  cases h : e.state <;>
    simp only [stepIdle, stepIdx, stepMid, _enter_idx_pinch, _enter_mid_pinch,
      _reset_pinch] <;>
    (repeat' split) <;> rfl

/-! ## C9 — malformed landmark lists -/

/-- **C9** (amended).  `update` fails — produces no `FrameEvent`, modelling
the `IndexError` the Python code raises — precisely when the landmark list is
too short to contain the required indices 4, 8 and 12, i.e. when its length is
below 13.  Any longer list, whether of length 21 or not, is processed without
any structural check. -/
theorem update_none_iff (e : GestureEngine) (lm : List Landmark) (now : ℚ) :
    update e lm now = Option.none ↔ lm.length < 13 := by
  constructor
  · intro h
    by_contra hlen
    push_neg at hlen
    obtain ⟨t, h4⟩ : ∃ t, lm[4]? = some t :=
      ⟨_, List.getElem?_eq_getElem (show 4 < lm.length by omega)⟩
    obtain ⟨i, h8⟩ : ∃ i, lm[8]? = some i :=
      ⟨_, List.getElem?_eq_getElem (show 8 < lm.length by omega)⟩
    obtain ⟨m, h12⟩ : ∃ m, lm[12]? = some m :=
      ⟨_, List.getElem?_eq_getElem (show 12 < lm.length by omega)⟩
    rw [update_eq_some e lm now h4 h8 h12] at h
    exact Option.noConfusion h
  · intro hlen
    have h12 : lm[12]? = Option.none := List.getElem?_eq_none (by omega)
    rcases h4 : lm[4]? with _ | t
    · simp [update, h4]
    · rcases h8 : lm[8]? with _ | i
      · simp [update, h4, h8]
      · simp [update, h4, h8, h12]

/-- **C9**, counterexample to the claim as stated: a landmark list of length
13 — malformed, since 13 ≠ 21 — is not rejected; `update` silently produces a
`FrameEvent` for it, because the required indices 4, 8, 12 happen to exist. -/
theorem malformed_list_accepted_cex :
    (update initEngine lm13 1).isSome = true ∧ lm13.length = 13 ∧ 13 ≠ 21 := by
  refine ⟨by decide!, by decide!, by decide⟩

/-! ## C8 — the per-frame payload -/

/-- **C8** (amended).  Every `update` call on a landmark list containing
indices 4, 8 and 12 returns exactly one `FrameEvent`, whatever the gesture
state; the event's `cursor` field is the current index-fingertip `(x, y)`
rounded to five decimal places, and its `confidence` equals
`1 - min index_distance middle_distance` — with no clamping to `[0, 1]`. -/
theorem payload_every_frame (e : GestureEngine) (lm : List Landmark) (now : ℚ)
    (thumb index middle : Landmark)
    (h4 : lm[4]? = some thumb) (h8 : lm[8]? = some index)
    (h12 : lm[12]? = some middle) :
    ∃ e' ev, update e lm now = some (e', ev) ∧
      ev.cursor = (roundTo 5 index.x, roundTo 5 index.y) ∧
      ev.confidence = 1 - min (_dist thumb index) (_dist thumb middle) := by
  refine ⟨_, _, update_eq_some e lm now h4 h8 h12, ?_, ?_⟩
  · show (roundTo 5 (stepState _ now index.x index.y).cursor_x,
          roundTo 5 (stepState _ now index.x index.y).cursor_y) = _
    rw [stepState_cursor_x, stepState_cursor_y]
    rfl
  · show 1 - min (stepState _ now index.x index.y).idx_dist
             (stepState _ now index.x index.y).mid_dist = _
    rw [stepState_idx_dist, stepState_mid_dist]
    rfl

/-- **C8**, witness: a concrete idle frame.  The index tip is at
`(1/5, 1/2)`, the distances are `3/10` and `1/5`, so the cursor is
`(1/5, 1/2)` and the confidence `1 - 1/5 = 4/5`. -/
theorem payload_every_frame_w :
    ((update staleEngine lmOpen 1).map fun p => (p.2.cursor, p.2.confidence)) =
      some ((1/5, 1/2), 4/5) := by
  obtain ⟨e', ev, heq, hcur, hconf⟩ :=
    payload_every_frame staleEngine lmOpen 1
      { x := 1/2, y := 1/2, z := 0 } { x := 1/5, y := 1/2, z := 0 }
      { x := 7/10, y := 1/2, z := 0 } (by decide!) (by decide!) (by decide!)
  rw [heq, Option.map_some', hcur, hconf]
  decide!

/-- **C8**, counterexample to the claim as stated: with the thumb at the
origin and both fingertips `6/5` away, the emitted confidence is `-1/5`,
outside `[0, 1]` — the code never clamps; and with the index tip at `x = 1/3`
the emitted cursor is the rounded `33333/100000`, not the fingertip
coordinate itself. -/
theorem payload_confidence_cex :
    ((update initEngine lmFar 1).map fun p => p.2.confidence) = some (-(1/5)) ∧
    ¬ (0 : ℚ) ≤ -(1/5) ∧
    ((update initEngine lmThird 1).map fun p => p.2.cursor.1) =
      some (33333/100000) ∧
    (33333/100000 : ℚ) ≠ 1/3 := by
  refine ⟨by decide!, by decide!, by decide!, by decide!⟩

/-! ## C4 — the middle-pinch (double-tap) channel -/

/-- **C4**.  From `Idle`, a pinched middle channel always enters `MiddlePinch`
with `(DoubleTap, Start)` — the branch is taken before the index channel is
even examined, so a simultaneous index pinch changes nothing.  On release
after `d < 200 ms` the engine emits `(DoubleTap, End)` with `tap_count = 2`
and arms the cooldown at `now + 300 ms`; on release after `d ≥ 200 ms` it
emits `(None, Idle)` and leaves the cooldown untouched.  Both releases return
to `Idle`. -/
theorem middle_channel_cases (e : GestureEngine) (lm : List Landmark) (now : ℚ)
    (thumb index middle : Landmark)
    (h4 : lm[4]? = some thumb) (h8 : lm[8]? = some index)
    (h12 : lm[12]? = some middle) :
    (e.state = .idle → hystStep e.mid_pinched (_dist thumb middle) = true →
      ∃ e' ev, update e lm now = some (e', ev) ∧ e'.state = .midPinch ∧
        e'.pinch_t0 = now ∧ ev.gtype = .double_tap ∧ ev.gstate = .start) ∧
    (e.state = .midPinch → hystStep e.mid_pinched (_dist thumb middle) = false →
      now - e.pinch_t0 < TAP_MAX_TIME →
      ∃ e' ev, update e lm now = some (e', ev) ∧ e'.state = .idle ∧
        ev.gtype = .double_tap ∧ ev.gstate = .end' ∧ ev.timing.tap_count = 2 ∧
        e'.dbl_cooldown_until = now + DOUBLE_TAP_COOL) ∧
    (e.state = .midPinch → hystStep e.mid_pinched (_dist thumb middle) = false →
      TAP_MAX_TIME ≤ now - e.pinch_t0 →
      ∃ e' ev, update e lm now = some (e', ev) ∧ e'.state = .idle ∧
        ev.gtype = .none ∧ ev.gstate = .idle ∧
        e'.dbl_cooldown_until = e.dbl_cooldown_until) := by
  refine ⟨fun hstate hmid => ?_, fun hstate hmid hdur => ?_,
          fun hstate hmid hdur => ?_⟩
  · refine ⟨_, _, update_eq_some e lm now h4 h8 h12, ?_, ?_, ?_, ?_⟩ <;>
      · rw [stepState_eq_idle _ _ _ _ (by simp [hstate])]
        simp [stepIdle, _enter_mid_pinch, hmid]
  · refine ⟨_, _, update_eq_some e lm now h4 h8 h12, ?_, ?_, ?_, ?_, ?_⟩ <;>
      · rw [stepState_eq_mid _ _ _ _ (by simp [hstate])]
        simp [stepMid, hmid, msec_cancel, hdur]
  · refine ⟨_, _, update_eq_some e lm now h4 h8 h12, ?_, ?_, ?_, ?_⟩ <;>
      · rw [stepState_eq_mid _ _ _ _ (by simp [hstate])]
        simp [stepMid, hmid, msec_cancel, not_lt.mpr hdur]

/-- **C4**, witness: a middle pinch held from `t = 0`, released at
`t = 1/10 < 0.2`: `(DoubleTap, End)`, `tap_count = 2`, cooldown armed at
`1/10 + 3/10 = 2/5`, back in `Idle`. -/
theorem middle_channel_cases_w :
    ((update midEngine lmOpen (1/10)).map fun p =>
        (p.1.state, p.2.gtype, p.2.gstate, p.2.timing.tap_count,
         p.1.dbl_cooldown_until)) =
      some (.idle, .double_tap, .end', 2, 2/5) := by
  obtain ⟨e', ev, heq, h1, h2, h3, h5, h6⟩ :=
    (middle_channel_cases midEngine lmOpen (1/10)
      { x := 1/2, y := 1/2, z := 0 } { x := 1/5, y := 1/2, z := 0 }
      { x := 7/10, y := 1/2, z := 0 }
      (by decide!) (by decide!) (by decide!)).2.1
      (by decide!) (by decide!) (by decide!)
  rw [heq, Option.map_some', h1, h2, h3, h5, h6]
  decide!

/-! ## C2 — ghost suppression after a double tap -/

/-- **C2** (amended).  A successful double-tap release at time `now` arms the
cooldown at `now + 300 ms`.  From `Idle`, an index pinch is vetoed whenever
`now ≤ deadline` — including `now = deadline` exactly, since the code gates on
the strict `now > deadline` — leaving the engine in `Idle` emitting
`(None, Idle)`; an index pinch with `now > deadline` (and no middle pinch)
enters `IndexPinch` with `(PinchHold, Start)`. -/
theorem cooldown_gate_strict (e : GestureEngine) (lm : List Landmark) (now : ℚ)
    (thumb index middle : Landmark)
    (h4 : lm[4]? = some thumb) (h8 : lm[8]? = some index)
    (h12 : lm[12]? = some middle) :
    (e.state = .midPinch → hystStep e.mid_pinched (_dist thumb middle) = false →
      now - e.pinch_t0 < TAP_MAX_TIME →
      ∃ e' ev, update e lm now = some (e', ev) ∧ e'.state = .idle ∧
        e'.dbl_cooldown_until = now + DOUBLE_TAP_COOL) ∧
    (e.state = .idle → hystStep e.mid_pinched (_dist thumb middle) = false →
      hystStep e.idx_pinched (_dist thumb index) = true →
      now ≤ e.dbl_cooldown_until →
      ∃ e' ev, update e lm now = some (e', ev) ∧ e'.state = .idle ∧
        ev.gtype = .none ∧ ev.gstate = .idle) ∧
    (e.state = .idle → hystStep e.mid_pinched (_dist thumb middle) = false →
      hystStep e.idx_pinched (_dist thumb index) = true →
      e.dbl_cooldown_until < now →
      ∃ e' ev, update e lm now = some (e', ev) ∧ e'.state = .idxPinch ∧
        e'.pinch_t0 = now ∧ ev.gtype = .pinch_hold ∧ ev.gstate = .start) := by
  refine ⟨fun hstate hmid hdur => ?_, fun hstate hmid hidx hcool => ?_,
          fun hstate hmid hidx hcool => ?_⟩
  · refine ⟨_, _, update_eq_some e lm now h4 h8 h12, ?_, ?_⟩ <;>
      · rw [stepState_eq_mid _ _ _ _ (by simp [hstate])]
        simp [stepMid, hmid, msec_cancel, hdur]
  · refine ⟨_, _, update_eq_some e lm now h4 h8 h12, ?_, ?_, ?_⟩ <;>
      · rw [stepState_eq_idle _ _ _ _ (by simp [hstate])]
        simp [stepIdle, hmid, hidx, not_lt.mpr hcool, hstate]
  · refine ⟨_, _, update_eq_some e lm now h4 h8 h12, ?_, ?_, ?_, ?_⟩ <;>
      · rw [stepState_eq_idle _ _ _ _ (by simp [hstate])]
        simp [stepIdle, _enter_idx_pinch, hmid, hidx, hcool]

/-- **C2**, witness: with the deadline armed at `2/5`, an index pinch at
`now = 2/5` is vetoed (`(None, Idle)`, still `Idle`), and the same pinch at
`now = 1/2 > 2/5` enters `IndexPinch` with `(PinchHold, Start)`. -/
theorem cooldown_gate_strict_w :
    ((update cooldownEngine lmIdxPinch (2/5)).map fun p =>
        (p.1.state, p.2.gtype, p.2.gstate)) = some (.idle, .none, .idle) ∧
    ((update cooldownEngine lmIdxPinch (1/2)).map fun p =>
        (p.1.state, p.2.gtype, p.2.gstate)) =
      some (.idxPinch, .pinch_hold, .start) := by
  constructor
  · obtain ⟨e', ev, heq, hs, hg, hgs⟩ :=
      (cooldown_gate_strict cooldownEngine lmIdxPinch (2/5)
        { x := 13/25, y := 1/2, z := 0 } { x := 1/2, y := 1/2, z := 0 }
        { x := 13/25, y := 1, z := 0 }
        (by decide!) (by decide!) (by decide!)).2.1
        (by decide!) (by decide!) (by decide!) (by decide!)
    rw [heq, Option.map_some', hs, hg, hgs]
  · obtain ⟨e', ev, heq, hs, _, hg, hgs⟩ :=
      (cooldown_gate_strict cooldownEngine lmIdxPinch (1/2)
        { x := 13/25, y := 1/2, z := 0 } { x := 1/2, y := 1/2, z := 0 }
        { x := 13/25, y := 1, z := 0 }
        (by decide!) (by decide!) (by decide!)).2.2
        (by decide!) (by decide!) (by decide!) (by decide!)
    rw [heq, Option.map_some', hs, hg, hgs]

/-- **C2**, counterexample to the claim as stated: a double tap over
`t = 0 … 1/10` arms the deadline at `2/5`; an index pinch arriving exactly at
`now = 2/5` — so with `now ≥ deadline` — does **not** enter `IndexPinch`: the
engine stays `Idle` and emits `(None, Idle)`, because the code tests the
strict `now > deadline`. -/
theorem cooldown_boundary_cex :
    ((runUpdates initEngine dblFrames).map fun p =>
        (p.1.state, p.1.dbl_cooldown_until,
         p.2.map fun ev => (ev.gtype, ev.gstate))) =
      some (.idle, 2/5,
        [(.double_tap, .start), (.double_tap, .end'), (.none, .idle)]) := by
  decide!

/-! ## C10 — timing fields are never reset -/

/-- **C10**.  A frame that keeps the engine in `Idle` (no middle pinch, and
the index channel unpinched or vetoed by the cooldown) emits `(None, Idle)`
but still reports the `tap_count` and `duration_ms` left behind by the last
completed gesture — they are carried over unchanged in the engine state too,
never being reset to zero. -/
theorem idle_preserves_timing (e : GestureEngine) (lm : List Landmark) (now : ℚ)
    (thumb index middle : Landmark)
    (h4 : lm[4]? = some thumb) (h8 : lm[8]? = some index)
    (h12 : lm[12]? = some middle)
    (hstate : e.state = .idle)
    (hmid : hystStep e.mid_pinched (_dist thumb middle) = false)
    (hblock : hystStep e.idx_pinched (_dist thumb index) = false ∨
      now ≤ e.dbl_cooldown_until) :
    ∃ e' ev, update e lm now = some (e', ev) ∧
      ev.gtype = .none ∧ ev.gstate = .idle ∧
      ev.timing.tap_count = e.tap_count ∧
      ev.timing.duration_ms = roundTo 1 e.dur_ms ∧
      e'.tap_count = e.tap_count ∧ e'.dur_ms = e.dur_ms := by
  refine ⟨_, _, update_eq_some e lm now h4 h8 h12, ?_, ?_, ?_, ?_, ?_, ?_⟩ <;>
    · rw [stepState_eq_idle _ _ _ _ (by simp [hstate])]
      rcases hblock with hidx | hcool
      · simp [stepIdle, hmid, hidx]
      · simp [stepIdle, hmid, not_lt.mpr hcool]

/-- **C10**, witness: an idle engine still carrying `tap_count = 2` and
`duration_ms = 120` from an earlier double tap keeps reporting both on an
idle frame. -/
theorem idle_preserves_timing_w :
    ((update staleEngine lmOpen 1).map fun p =>
        (p.2.gtype, p.2.gstate, p.2.timing.tap_count, p.2.timing.duration_ms,
         p.1.tap_count, p.1.dur_ms)) =
      some (.none, .idle, 2, 120, 2, 120) := by
  obtain ⟨e', ev, heq, h1, h2, h3, h5, h6, h7⟩ :=
    idle_preserves_timing staleEngine lmOpen 1
      { x := 1/2, y := 1/2, z := 0 } { x := 1/5, y := 1/2, z := 0 }
      { x := 7/10, y := 1/2, z := 0 }
      (by decide!) (by decide!) (by decide!) (by decide!) (by decide!)
      (Or.inl (by decide!))
  rw [heq, Option.map_some', h1, h2, h3, h5, h6, h7]
  decide!

/-! ## C1 — release classification of an index pinch -/

/-- **C1**.  When the index channel unpinches while the engine is in
`IndexPinch`, the classification cascade runs in the order the claim states:
flick first (`has_moved` and windowed velocity above `FLICK_VELOCITY`,
regardless of duration, and then never `PinchDrag`), then tap
(`duration < 200 ms` and not moved, with `tap_count = 1`), then drag-end
(moved but slow), then hold-end; and the engine returns to `Idle` in every
case. -/
theorem idx_release_cases (e : GestureEngine) (lm : List Landmark) (now : ℚ)
    (thumb index middle : Landmark)
    (h4 : lm[4]? = some thumb) (h8 : lm[8]? = some index)
    (h12 : lm[12]? = some middle)
    (hstate : e.state = .idxPinch)
    (hrel : hystStep e.idx_pinched (_dist thumb index) = false) :
    ∃ e' ev, update e lm now = some (e', ev) ∧ e'.state = .idle ∧
      (e.moved = true →
        FLICK_VELOCITY < _calc_vel (pushTrail e.trail (index.x, index.y, now)) →
        ev.gtype = .pinch_flick ∧ ev.gstate = .end' ∧ ev.gtype ≠ .pinch_drag) ∧
      (e.moved = false → now - e.pinch_t0 < TAP_MAX_TIME →
        ev.gtype = .tap ∧ ev.gstate = .end' ∧ ev.timing.tap_count = 1) ∧
      (e.moved = true →
        _calc_vel (pushTrail e.trail (index.x, index.y, now)) ≤ FLICK_VELOCITY →
        ev.gtype = .pinch_drag ∧ ev.gstate = .end') ∧
      (e.moved = false → TAP_MAX_TIME ≤ now - e.pinch_t0 →
        ev.gtype = .pinch_hold ∧ ev.gstate = .end') := by
  refine ⟨_, _, update_eq_some e lm now h4 h8 h12, ?_,
    fun hm hv => ?_, fun hm hd => ?_, fun hm hv => ?_, fun hm hd => ?_⟩ <;>
    rw [stepState_eq_idx _ _ _ _ (by simp [hstate])]
  · simp [stepIdx, hrel, _reset_pinch]
  · simp [stepIdx, hrel, _reset_pinch, hm, hv]
  · simp [stepIdx, hrel, _reset_pinch, hm, hd, msec_cancel]
  · simp [stepIdx, hrel, _reset_pinch, hm, not_lt.mpr hv]
  · simp [stepIdx, hrel, _reset_pinch, hm, not_lt.mpr hd, msec_cancel]

/-- **C1**, witness: a moved pinch whose trail covered 0.3 units in 90 ms
(windowed velocity `1/3 > 0.3`) released after only 90 ms — tap-eligible by
duration — still classifies `(PinchFlick, End)` and returns to `Idle`. -/
theorem idx_release_cases_w :
    ((update flickEngine lmFlick (9/100)).map fun p =>
        (p.1.state, p.2.gtype, p.2.gstate)) =
      some (.idle, .pinch_flick, .end') := by
  obtain ⟨e', ev, heq, hidle, hflick, _, _, _⟩ :=
    idx_release_cases flickEngine lmFlick (9/100)
      { x := 9/25, y := 0, z := 0 } { x := 3/10, y := 0, z := 0 }
      { x := 9/25, y := 1/2, z := 0 }
      (by decide!) (by decide!) (by decide!) (by decide!) (by decide!)
  obtain ⟨hg, hs, _⟩ := hflick (by decide!) (by decide!)
  rw [heq, Option.map_some', hidle, hg, hs]

/-! ## C3 — the tap law -/

/-- While the index pinch continues and the engine has not yet moved, the
sticky flag is set on this frame exactly when the accumulated displacement
has exceeded the deadzone. -/
theorem stepIdx_cont_nomove (e : GestureEngine) (now ix iy : ℚ)
    (hp : e.idx_pinched = true) (hm : e.moved = false) :
    (stepIdx e now ix iy).state = e.state ∧
    (stepIdx e now ix iy).idx_pinched = e.idx_pinched ∧
    ((stepIdx e now ix iy).moved = true ↔
      DRAG_DEADZONE < (stepIdx e now ix iy).cum_move) := by
  unfold stepIdx
  rcases hpp : e.prev_palm with _ | pp <;>
    simp [hp, hm, hpp] <;> (repeat' split) <;> simp_all

/-- One in-pinch frame of the tap law, lifted to `update`: the pinch is kept,
and `moved` turns on exactly when the accumulated displacement has left the
deadzone. -/
theorem update_keep_nomove (e : GestureEngine) (lm : List Landmark) (now : ℚ)
    {thumb index middle : Landmark}
    (h4 : lm[4]? = some thumb) (h8 : lm[8]? = some index)
    (h12 : lm[12]? = some middle)
    (hstate : e.state = .idxPinch) (hp : e.idx_pinched = true)
    (hm : e.moved = false) (hd : _dist thumb index ≤ PINCH_EXIT) :
    ∃ e' ev, update e lm now = some (e', ev) ∧ e'.state = .idxPinch ∧
      e'.idx_pinched = true ∧
      (e'.moved = true ↔ DRAG_DEADZONE < e'.cum_move) := by
  have hidx : hystStep e.idx_pinched (_dist thumb index) = true := by
    simp [hystStep, hp, not_lt.mpr hd]
  have hc := stepIdx_cont_nomove (preFrame e thumb index middle now) now
    index.x index.y (by simp [hidx]) (by simp [hm])
  refine ⟨_, _, update_eq_some e lm now h4 h8 h12, ?_, ?_, ?_⟩ <;>
    rw [stepState_eq_idx _ _ _ _ (by simp [hstate])]
  · rw [hc.1]
    simp [hstate]
  · rw [hc.2.1]
    simp [hidx]
  · exact hc.2.2

/-- The sequence form of the tap law's invariant: as long as every frame
keeps the index channel pinched and the accumulated displacement stays inside
the `0.05` deadzone after every prefix, `moved` is still `false` at the
end. -/
theorem run_keep_nomove (fs : List (List Landmark × ℚ)) (e : GestureEngine)
    (hstate : e.state = .idxPinch) (hp : e.idx_pinched = true)
    (hm : e.moved = false)
    (hall : ∀ f ∈ fs, ∃ thumb index middle,
      f.1[4]? = some thumb ∧ f.1[8]? = some index ∧ f.1[12]? = some middle ∧
      _dist thumb index ≤ PINCH_EXIT)
    (hcum : ∀ n p, runUpdates e (fs.take n) = some p →
      p.1.cum_move < DRAG_DEADZONE) :
    ∃ ef evs, runUpdates e fs = some (ef, evs) ∧ ef.state = .idxPinch ∧
      ef.idx_pinched = true ∧ ef.moved = false := by
  induction fs generalizing e with
  | nil => exact ⟨e, [], rfl, hstate, hp, hm⟩
  | cons f rest ih =>
    obtain ⟨lm, t⟩ := f
    obtain ⟨thumb, index, middle, h4, h8, h12, hd⟩ := hall (lm, t) (by simp)
    obtain ⟨e', ev, heq, hs', hp', hiff⟩ :=
      update_keep_nomove e lm t h4 h8 h12 hstate hp hm hd
    have hcum1 : e'.cum_move < DRAG_DEADZONE := by
      refine hcum 1 (e', [ev]) ?_
      simp [runUpdates, heq]
    have hm' : e'.moved = false := by
      cases hmv : e'.moved
      · rfl
      · exact absurd (hiff.mp hmv) (not_lt.mpr (le_of_lt hcum1))
    have hcum' : ∀ n p, runUpdates e' (rest.take n) = some p →
        p.1.cum_move < DRAG_DEADZONE := by
      intro n p hr
      obtain ⟨pf, evs⟩ := p
      refine hcum (n + 1) (pf, ev :: evs) ?_
      rw [List.take_succ_cons]
      simp [runUpdates, heq, hr]
    obtain ⟨ef, evs, hrun, hsf, hpf, hmf⟩ :=
      ih e' hs' hp' hm' (fun g hg => hall g (by simp [hg])) hcum'
    exact ⟨ef, ev :: evs, by simp [runUpdates, heq, hrun], hsf, hpf, hmf⟩

/-- **C3**.  The tap law, as the inductive pieces of the claim plus the
claim's concrete scenario: (1) entering `IndexPinch` from `Idle` resets the
motion accumulator (`moved = false`, `cum_move = 0`) and stamps
`pinch_start = now`; (2) while the pinch continues, `moved` stays `false`
exactly as long as the accumulated displacement stays within the `0.05`
deadzone; (3) a release with `moved = false` and `duration < 200 ms`
classifies `(Tap, End)` with `tap_count = 1`; and (4) the index-distance
sequence `[0.10, 0.02, 0.02, 0.02, 0.10]` sampled 33 ms apart with a
motionless index tip ends in `(Tap, End)` with `tap_count = 1`. -/
theorem tap_law (e : GestureEngine) (lm : List Landmark) (now : ℚ)
    (thumb index middle : Landmark)
    (h4 : lm[4]? = some thumb) (h8 : lm[8]? = some index)
    (h12 : lm[12]? = some middle) :
    (e.state = .idle → hystStep e.mid_pinched (_dist thumb middle) = false →
      hystStep e.idx_pinched (_dist thumb index) = true →
      e.dbl_cooldown_until < now →
      ∃ e' ev, update e lm now = some (e', ev) ∧ e'.state = .idxPinch ∧
        e'.moved = false ∧ e'.cum_move = 0 ∧ e'.pinch_t0 = now) ∧
    (∀ (fs : List (List Landmark × ℚ)) (e0 : GestureEngine),
      e0.state = .idxPinch → e0.idx_pinched = true → e0.moved = false →
      (∀ f ∈ fs, ∃ t i m, f.1[4]? = some t ∧ f.1[8]? = some i ∧
        f.1[12]? = some m ∧ _dist t i ≤ PINCH_EXIT) →
      (∀ n p, runUpdates e0 (fs.take n) = some p →
        p.1.cum_move < DRAG_DEADZONE) →
      ∃ ef evs, runUpdates e0 fs = some (ef, evs) ∧ ef.state = .idxPinch ∧
        ef.idx_pinched = true ∧ ef.moved = false) ∧
    (e.state = .idxPinch → hystStep e.idx_pinched (_dist thumb index) = false →
      e.moved = false → now - e.pinch_t0 < TAP_MAX_TIME →
      ∃ e' ev, update e lm now = some (e', ev) ∧ e'.state = .idle ∧
        ev.gtype = .tap ∧ ev.gstate = .end' ∧ ev.timing.tap_count = 1 ∧
        e'.tap_count = 1) ∧
    ((runUpdates initEngine tapFrames).map fun p =>
        (p.1.state, p.1.tap_count,
         p.2.map fun ev => (ev.gtype, ev.gstate, ev.timing.tap_count))) =
      some (.idle, 1,
        [(.none, .idle, 0), (.pinch_hold, .start, 0), (.pinch_hold, .start, 0),
         (.pinch_hold, .start, 0), (.tap, .end', 1)]) := by
  refine ⟨fun hstate hmid hidx hcool => ?_,
          fun fs e0 a b c d f => run_keep_nomove fs e0 a b c d f,
          fun hstate hrel hm hdur => ?_, by decide!⟩
  · refine ⟨_, _, update_eq_some e lm now h4 h8 h12, ?_, ?_, ?_, ?_⟩ <;>
      · rw [stepState_eq_idle _ _ _ _ (by simp [hstate])]
        simp [stepIdle, _enter_idx_pinch, hmid, hidx, hcool]
  · refine ⟨_, _, update_eq_some e lm now h4 h8 h12, ?_, ?_, ?_, ?_, ?_⟩ <;>
      rw [stepState_eq_idx _ _ _ _ (by simp [hstate])]
    all_goals simp [stepIdx, hrel, _reset_pinch, hm, hdur, msec_cancel]

/-- **C3**, witness: a motionless held frame keeps `moved = false`, and a
motionless pinch started at `t = 0` and released at `t = 1/10` (duration
100 ms < 200 ms) classifies `(Tap, End)` with `tap_count = 1`. -/
theorem tap_law_w :
    ((runUpdates tapRelEngine [(lmIdxPinch, 1/30)]).map fun p =>
        (p.1.state, p.1.moved)) = some (.idxPinch, false) ∧
    ((update tapRelEngine lmOpen (1/10)).map fun p =>
        (p.1.state, p.2.gtype, p.2.gstate, p.2.timing.tap_count)) =
      some (.idle, .tap, .end', 1) := by
  constructor
  · obtain ⟨ef, evs, hrun, hs, _, hm⟩ :=
      (tap_law tapRelEngine lmOpen (1/10)
        { x := 1/2, y := 1/2, z := 0 } { x := 1/5, y := 1/2, z := 0 }
        { x := 7/10, y := 1/2, z := 0 }
        (by decide!) (by decide!) (by decide!)).2.1
        [(lmIdxPinch, 1/30)] tapRelEngine (by decide!) (by decide!) (by decide!)
        (by
          intro f hf
          simp only [List.mem_cons, List.not_mem_nil, or_false] at hf
          subst hf
          exact ⟨{ x := 13/25, y := 1/2, z := 0 }, { x := 1/2, y := 1/2, z := 0 },
                 { x := 13/25, y := 1, z := 0 },
                 by decide!, by decide!, by decide!, by decide!⟩)
        (by
          intro n p h
          have htake : ([((lmIdxPinch : List Landmark), (1/30 : ℚ))].take n) = [] ∨
              ([((lmIdxPinch : List Landmark), (1/30 : ℚ))].take n) =
                [(lmIdxPinch, 1/30)] := by
            cases n with
            | zero => exact Or.inl rfl
            | succ k => exact Or.inr (by simp)
          rcases htake with ht | ht
          · rw [ht] at h
            have hb : (runUpdates tapRelEngine
                ([] : List (List Landmark × ℚ))).map
                (fun q => decide (q.1.cum_move < DRAG_DEADZONE)) = some true := by
              decide!
            rw [h, Option.map_some'] at hb
            exact of_decide_eq_true (Option.some.inj hb)
          · rw [ht] at h
            have hb : (runUpdates tapRelEngine
                [((lmIdxPinch : List Landmark), (1/30 : ℚ))]).map
                (fun q => decide (q.1.cum_move < DRAG_DEADZONE)) = some true := by
              decide!
            rw [h, Option.map_some'] at hb
            exact of_decide_eq_true (Option.some.inj hb))
    rw [hrun, Option.map_some', hs, hm]
  · obtain ⟨e', ev, heq, hst, hg, hs, htc, _⟩ :=
      (tap_law tapRelEngine lmOpen (1/10)
        { x := 1/2, y := 1/2, z := 0 } { x := 1/5, y := 1/2, z := 0 }
        { x := 7/10, y := 1/2, z := 0 }
        (by decide!) (by decide!) (by decide!)).2.2.1
        (by decide!) (by decide!) (by decide!) (by decide!)
    rw [heq, Option.map_some', hst, hg, hs, htc]

/-! ## C5 — sticky drag -/

/-- While the index pinch continues with the sticky flag already set, the
frame keeps the flag, stays in the same state, and classifies
`(PinchDrag, Active)` — even when the displacement added this frame is
zero. -/
theorem stepIdx_moved (e : GestureEngine) (now ix iy : ℚ)
    (hp : e.idx_pinched = true) (hm : e.moved = true) :
    (stepIdx e now ix iy).state = e.state ∧
    (stepIdx e now ix iy).idx_pinched = true ∧
    (stepIdx e now ix iy).moved = true ∧
    (stepIdx e now ix iy).gtype = .pinch_drag ∧
    (stepIdx e now ix iy).gstate = .active := by
  unfold stepIdx
  rcases hpp : e.prev_palm with _ | pp <;> simp [hp, hm, hpp]

/-- One frame of the sticky-drag invariant, lifted to `update`. -/
theorem update_keep_drag (e : GestureEngine) (lm : List Landmark) (now : ℚ)
    {thumb index middle : Landmark}
    (h4 : lm[4]? = some thumb) (h8 : lm[8]? = some index)
    (h12 : lm[12]? = some middle)
    (hstate : e.state = .idxPinch) (hp : e.idx_pinched = true)
    (hm : e.moved = true) (hd : _dist thumb index ≤ PINCH_EXIT) :
    ∃ e' ev, update e lm now = some (e', ev) ∧ e'.state = .idxPinch ∧
      e'.idx_pinched = true ∧ e'.moved = true ∧
      ev.gtype = .pinch_drag ∧ ev.gstate = .active := by
  have hidx : hystStep e.idx_pinched (_dist thumb index) = true := by
    simp [hystStep, hp, not_lt.mpr hd]
  have hA := stepIdx_moved (preFrame e thumb index middle now) now
    index.x index.y (by simp [hidx]) (by simp [hm])
  refine ⟨_, _, update_eq_some e lm now h4 h8 h12, ?_, ?_, ?_, ?_, ?_⟩ <;>
    rw [stepState_eq_idx _ _ _ _ (by simp [hstate])]
  · rw [hA.1]
    simp [hstate]
  · exact hA.2.1
  · exact hA.2.2.1
  · show (mkFrameEvent _ index lm).gtype = _
    rw [mkFrameEvent_gtype]
    exact hA.2.2.2.1
  · show (mkFrameEvent _ index lm).gstate = _
    rw [mkFrameEvent_gstate]
    exact hA.2.2.2.2

/-- **C5**.  Once `has_moved` is set during an index pinch it is sticky: for
any sequence of frames that keeps the index channel pinched (thumb–index
distance at most `PINCH_EXIT`), every emitted event classifies
`(PinchDrag, Active)` — the frame-to-frame displacement may be zero — and the
flag is still set at the end.  (`has_moved` is only cleared by
`_reset_pinch` at release or by `_enter_idx_pinch` on a new pinch.) -/
theorem sticky_drag (fs : List (List Landmark × ℚ)) (e : GestureEngine)
    (hstate : e.state = .idxPinch) (hp : e.idx_pinched = true)
    (hm : e.moved = true)
    (hall : ∀ f ∈ fs, ∃ thumb index middle,
      f.1[4]? = some thumb ∧ f.1[8]? = some index ∧ f.1[12]? = some middle ∧
      _dist thumb index ≤ PINCH_EXIT) :
    ∃ ef evs, runUpdates e fs = some (ef, evs) ∧ ef.state = .idxPinch ∧
      ef.idx_pinched = true ∧ ef.moved = true ∧
      ∀ ev ∈ evs, ev.gtype = .pinch_drag ∧ ev.gstate = .active := by
  induction fs generalizing e with
  | nil => exact ⟨e, [], rfl, hstate, hp, hm, by simp⟩
  | cons f rest ih =>
    obtain ⟨lm, t⟩ := f
    obtain ⟨thumb, index, middle, h4, h8, h12, hd⟩ := hall (lm, t) (by simp)
    obtain ⟨e', ev, heq, hs', hp', hm', hg, hgs⟩ :=
      update_keep_drag e lm t h4 h8 h12 hstate hp hm hd
    obtain ⟨ef, evs, hrun, hsf, hpf, hmf, hevs⟩ :=
      ih e' hs' hp' hm' (fun g hg' => hall g (by simp [hg']))
    refine ⟨ef, ev :: evs, ?_, hsf, hpf, hmf, ?_⟩
    · simp [runUpdates, heq, hrun]
    · intro x hx
      rcases List.mem_cons.mp hx with hx | hx
      · subst hx
        exact ⟨hg, hgs⟩
      · exact hevs x hx

/-- **C5**, witness: an engine that already crossed the deadzone is fed two
motionless frames that keep the pinch held; it is still in `IndexPinch` with
`moved = true` afterwards. -/
theorem sticky_drag_w :
    ((runUpdates stickyEngine stickyFrames).map fun p =>
        (p.1.state, p.1.moved)) = some (.idxPinch, true) := by
  obtain ⟨ef, evs, hrun, hs, _, hm, _⟩ :=
    sticky_drag stickyFrames stickyEngine (by decide!) (by decide!) (by decide!)
      (by
        intro f hf
        simp only [stickyFrames, List.mem_cons, List.not_mem_nil, or_false] at hf
        rcases hf with rfl | rfl <;>
          exact ⟨{ x := 13/25, y := 1/2, z := 0 }, { x := 1/2, y := 1/2, z := 0 },
                 { x := 13/25, y := 1, z := 0 },
                 by decide!, by decide!, by decide!, by decide!⟩)
  rw [hrun, Option.map_some', hs, hm]

/-! ## C6 — hysteresis of the pinch channels -/

theorem hystStep_of_belowEnter (b : Bool) (d : ℚ) (h : belowEnter d = true) :
    hystStep b d = true := by
  have hd : d < PINCH_DIST := by simpa [belowEnter] using h
  have hnd : ¬ PINCH_EXIT < d := by
    rw [PINCH_DIST] at hd
    rw [PINCH_EXIT]
    norm_num at hd ⊢
    linarith
  cases b <;> simp [hystStep, hd, hnd]

/-- The accounting step behind the hysteresis-stability bound: the number of
flag changes is dominated by the number of changes of the pointwise ENTER
comparison (seeded with the starting flag), up to one pending `credit`. -/
theorem flagChanges_le (ds : List ℚ) : ∀ b p : Bool, (p = true → b = true) →
    flagChanges b ds ≤ changeCount p (ds.map belowEnter) + credit b p := by
  induction ds with
  | nil =>
    intro b p _
    simp [flagChanges, changeCount]
  | cons d rest ih =>
    intro b p hbp
    have hrec := ih (hystStep b d) (belowEnter d) (hystStep_of_belowEnter b d)
    have hcontra : ¬(d < PINCH_DIST ∧ PINCH_EXIT < d) := by
      rintro ⟨a1, a2⟩
      rw [PINCH_DIST] at a1
      rw [PINCH_EXIT] at a2
      norm_num at a1 a2
      linarith
    have key : ((if hystStep b d = b then 0 else 1) +
        credit (hystStep b d) (belowEnter d) : ℕ) ≤
        (if belowEnter d = p then 0 else 1) + credit b p := by
      cases b <;> cases p <;>
        by_cases h1 : d < PINCH_DIST <;> by_cases h2 : PINCH_EXIT < d
      all_goals simp_all [hystStep, credit, belowEnter]
      all_goals simp [not_lt.mpr h1]
    simp only [flagChanges, List.map_cons, changeCount]
    revert hrec key
    generalize (if hystStep b d = b then (0 : ℕ) else 1) = x1
    generalize (if belowEnter d = p then (0 : ℕ) else 1) = x2
    generalize flagChanges (hystStep b d) rest = F
    generalize changeCount (belowEnter d) (List.map belowEnter rest) = CC
    generalize credit (hystStep b d) (belowEnter d) = c1
    generalize credit b p = c2
    intro hrec key
    omega

theorem changeCount_le_listChanges (l : List Bool) (b : Bool) :
    changeCount b l ≤ listChanges l + 1 := by
  cases l with
  | nil => simp [changeCount, listChanges]
  | cons x xs =>
    simp only [changeCount, listChanges]
    split <;> omega

theorem credit_self (b : Bool) : credit b b = 0 := by
  cases b <;> simp [credit]

/-- **C6**.  The per-frame pinched flag is the pure function `hystStep` of
`(previous flag, distance)` — used verbatim by `preFrame` for both channels:
from `false` it turns on exactly when `distance < 0.04`, from `true` it turns
off exactly when `distance > 0.05`, and otherwise it is unchanged.
Consequently, along a monotone increasing-then-decreasing distance sequence
that crosses each of the two thresholds once, the flag changes value at most
twice. -/
theorem hysteresis_props :
    (∀ d : ℚ, (hystStep false d = true ↔ d < PINCH_DIST) ∧
              (hystStep true d = false ↔ PINCH_EXIT < d)) ∧
    (∀ (b : Bool) (d : ℚ), ¬(b = false ∧ d < PINCH_DIST) →
      ¬(b = true ∧ PINCH_EXIT < d) → hystStep b d = b) ∧
    (∀ (b : Bool) (ds : List ℚ),
      (∃ l1 l2, ds = l1 ++ l2 ∧ l1.Chain' (· ≤ ·) ∧
        l2.Chain' (fun a c => c ≤ a)) →
      listChanges (ds.map belowEnter) = 1 →
      listChanges (ds.map aboveExit) = 1 →
      flagChanges b ds ≤ 2) ∧
    (∀ (e : GestureEngine) (t i m : Landmark) (now : ℚ),
      (preFrame e t i m now).idx_pinched = hystStep e.idx_pinched (_dist t i) ∧
      (preFrame e t i m now).mid_pinched =
        hystStep e.mid_pinched (_dist t m)) := by
  refine ⟨fun d => ⟨?_, ?_⟩, fun b d h1 h2 => ?_, fun b ds _ hEnter _ => ?_,
          fun e t i m now => ⟨rfl, rfl⟩⟩
  · by_cases h : d < PINCH_DIST <;> simp [hystStep, h]
  · by_cases h : PINCH_EXIT < d <;> simp [hystStep, h]
  · cases b <;> by_cases hA : d < PINCH_DIST <;> by_cases hB : PINCH_EXIT < d <;>
      simp_all [hystStep]
  · have hle := flagChanges_le ds b b (fun h => h)
    have hcc := changeCount_le_listChanges (ds.map belowEnter) b
    rw [credit_self] at hle
    omega

/-- **C6**, witness: `hystStep` turns on below ENTER and off above EXIT, and
the increasing sequence `[0.03, 0.045, 0.06]` — which crosses ENTER once and
EXIT once — flips the flag at most twice. -/
theorem hysteresis_props_w :
    hystStep false (3/100) = true ∧ hystStep true (3/50) = false ∧
    flagChanges false [3/100, 9/200, 3/50] ≤ 2 ∧
    (preFrame initEngine { x := 0, y := 0, z := 0 } { x := 3/100, y := 0, z := 0 }
      { x := 1/2, y := 0, z := 0 } 0).idx_pinched =
      hystStep false (_dist { x := 0, y := 0, z := 0 }
        { x := 3/100, y := 0, z := 0 }) := by
  refine ⟨?_, ?_, ?_, ?_⟩
  · exact (hysteresis_props.1 (3/100)).1.mpr (by decide!)
  · exact (hysteresis_props.1 (3/50)).2.mpr (by decide!)
  · exact hysteresis_props.2.2.1 false [3/100, 9/200, 3/50]
      ⟨[3/100, 9/200, 3/50], [], by simp,
       by simp only [List.chain'_cons, List.chain'_singleton, and_true]
          constructor <;> norm_num,
       by simp⟩
      (by decide!) (by decide!)
  · exact (hysteresis_props.2.2.2 initEngine { x := 0, y := 0, z := 0 }
      { x := 3/100, y := 0, z := 0 } { x := 1/2, y := 0, z := 0 } 0).1

/-! ## C7 — the windowed velocity estimator -/

theorem getLastD_getD (a b : Sample) (xs : List Sample) :
    ((a :: xs).getLast?).getD b = (xs.getLast?).getD a := by
  cases xs with
  | nil => rfl
  | cons y ys =>
    rw [List.getLast?_cons_cons]
    obtain ⟨v, hv⟩ := Option.isSome_iff_exists.mp
      (by simp : (y :: ys).getLast?.isSome = true)
    rw [hv]
    rfl

/-- The `for`-loop with `break` of `_calc_vel` selects exactly the last
sample of the longest initial run satisfying `t ≤ target` (the claim's
"scan from oldest, keep the last sample satisfying `t ≤ target`"),
defaulting to the oldest sample. -/
theorem scanBest_eq (target : ℚ) (l : List Sample) : ∀ p0 : Sample,
    scanBest p0 l target =
      ((l.takeWhile fun p => p.2.2 ≤ target).getLast?).getD p0 := by
  induction l with
  | nil =>
    intro p0
    simp [scanBest]
  | cons q rest ih =>
    intro p0
    by_cases h : q.2.2 ≤ target
    · have ht : (q :: rest).takeWhile (fun p => p.2.2 ≤ target) =
          q :: rest.takeWhile (fun p => p.2.2 ≤ target) := by
        simp [List.takeWhile_cons, h]
      rw [show scanBest p0 (q :: rest) target = scanBest q rest target by
        simp [scanBest, h]]
      rw [ih q, ht, getLastD_getD]
    · simp [scanBest, h, List.takeWhile_cons]

theorem calc_vel_cons (p0 : Sample) (rest : List Sample)
    (h3 : ¬((p0 :: rest).length < 3)) :
    _calc_vel (p0 :: rest) =
      (if (rest.getLastD p0).2.2 - (velRef p0 rest).2.2 < 0.01 then 0
       else ratSqrt (((rest.getLastD p0).1 - (velRef p0 rest).1) ^ 2 +
           ((rest.getLastD p0).2.1 - (velRef p0 rest).2.1) ^ 2) *
         (0.1 / ((rest.getLastD p0).2.2 - (velRef p0 rest).2.2))) := by
  unfold _calc_vel velRef
  rw [if_neg h3]
  dsimp only
  rw [scanBest_eq]

/-- **C7**.  The windowed velocity: `0` for fewer than three samples;
otherwise the reference sample is selected exactly as described (scanning
from the oldest, keeping the last sample with `t ≤ latest.t - 0.1`, here
`velRef`), and with `dt = latest.t - ref.t` the result is `0` — returned
normally, never an error — when `dt < 0.01`, and
`distance(ref, latest) * (0.1 / dt)` otherwise. -/
theorem calc_vel_spec :
    (∀ trail : List Sample, trail.length < 3 → _calc_vel trail = 0) ∧
    (∀ (p0 : Sample) (rest : List Sample), 3 ≤ (p0 :: rest).length →
      ((rest.getLastD p0).2.2 - (velRef p0 rest).2.2 < 0.01 →
        _calc_vel (p0 :: rest) = 0) ∧
      (0.01 ≤ (rest.getLastD p0).2.2 - (velRef p0 rest).2.2 →
        _calc_vel (p0 :: rest) =
          ratSqrt (((rest.getLastD p0).1 - (velRef p0 rest).1) ^ 2 +
              ((rest.getLastD p0).2.1 - (velRef p0 rest).2.1) ^ 2) *
            (0.1 / ((rest.getLastD p0).2.2 - (velRef p0 rest).2.2)))) := by
  constructor
  · intro trail h
    unfold _calc_vel
    rw [if_pos h]
  · intro p0 rest hlen
    constructor <;> intro hdt <;>
      rw [calc_vel_cons p0 rest (not_lt.mpr hlen)]
    · rw [if_pos hdt]
    · rw [if_neg (not_lt.mpr hdt)]

/-- **C7**, witness: a two-sample trail yields `0`; on the concrete
three-sample trail `velTrail` the selected reference sample is
`(1/10, 0, 3/100)`, `dt = 17/100 ≥ 0.01`, and the result is
`(1/10) * (0.1 / (17/100)) = 1/17`. -/
theorem calc_vel_spec_w :
    _calc_vel [((0 : ℚ), (0 : ℚ), (0 : ℚ)), (1, 1, 1)] = 0 ∧
    _calc_vel velTrail = 1/17 := by
  constructor
  · exact calc_vel_spec.1 _ (by decide)
  · have h := ((calc_vel_spec.2 (0, 0, 0) [(1/10, 0, 3/100), (1/5, 0, 1/5)]
      (by decide)).2 (by decide!))
    rw [show velTrail = (0, 0, 0) :: [(1/10, 0, 3/100), (1/5, 0, 1/5)] from rfl, h]
    decide!

end GestureClient
